import Mathlib

/-!
Verification of the Galton board engine (GlatonBoardApp).

The repository contains several variants of the board component.  The
definitions below are shallow embeddings, over `ℚ`, of:

* `getLayoutMetrics`   — the layout calculator of the two-canvas variant
  (src/unnamed/part_002);
* `getLayoutMetricsV1` — the layout calculator of the single-render variant
  (src/unnamed/part_001);
* the gate interpolation, the per-tick restitution zoning, the completion
  check, the ball-queue flattening, the bucket-label synchronisation, the
  bin-divider construction and the two spawn models.

JavaScript numbers are modelled by rationals; the decimal constants of the
source (`0.15`, `0.75`, `0.6`, `0.2`, …) appear as the corresponding exact
fractions.
-/

/-- Mirror of `SimulationConfig` from src/types.ts.  The integral sliders
(`rowCount`, `ballCount`, `bucketCount`) are naturals, the remaining numeric
fields rationals. -/
structure SimulationConfig where
  rowCount : ℕ
  ballCount : ℕ
  bucketCount : ℕ
  pegSize : ℚ
  ballSize : ℚ
  ballRestitution : ℚ
  dropSpeedMs : ℚ
deriving DecidableEq

/-- The record returned by `getLayoutMetrics` in src/unnamed/part_002. -/
structure LayoutMetrics where
  funnelSlopeHeight : ℚ
  funnelNeckHeight : ℚ
  funnelExitY : ℚ
  pegStartY : ℚ
  binStartY : ℚ
  binHeight : ℚ
  spacingX : ℚ
  spacingY : ℚ
deriving DecidableEq

/-- Source expression `funnelSlopeHeight = Math.max(70, height * 0.15)`
(src/unnamed/part_002, line 86). -/
def funnelSlopeHeightOf (height : ℚ) : ℚ := max 70 (height * (15/100))

/-- Source expression `funnelExitY = funnelSlopeHeight + funnelNeckHeight` with
`funnelNeckHeight = 40` (src/unnamed/part_002, lines 87-88). -/
def funnelExitYOf (height : ℚ) : ℚ := funnelSlopeHeightOf height + 40

/-- Source expression `spacingX = width / bucketCount`
(src/unnamed/part_002, line 93): the horizontal spacing always fills the
full container width. -/
def layoutSpacingX (width : ℚ) (cfg : SimulationConfig) : ℚ :=
  width / (cfg.bucketCount : ℚ)

/-- Source expression `idealSpacingY = spacingX * 0.75`
(src/unnamed/part_002, line 96). -/
def idealSpacingYOf (width : ℚ) (cfg : SimulationConfig) : ℚ :=
  layoutSpacingX width cfg * (75/100)

/-- Source expression `minViableBinHeight = Math.max(150, height * 0.3)`
(src/unnamed/part_002, line 99). -/
def minViableBinHeightOf (height : ℚ) : ℚ := max 150 (height * (30/100))

/-- Source expression `availableHeightForPegs = height - funnelExitY -
topMargin - gap - minViableBinHeight`, with `topMargin = 10` and `gap = 30`
(src/unnamed/part_002, line 100). -/
def availableHeightForPegsOf (height : ℚ) : ℚ :=
  height - funnelExitYOf height - 10 - 30 - minViableBinHeightOf height

/-- The vertical spacing of src/unnamed/part_002, lines 102-108: the ideal
spacing, squashed to `max 10 (availableHeightForPegs / (rowCount - 1))` when
the ideal peg block does not fit. -/
def layoutSpacingY (width height : ℚ) (cfg : SimulationConfig) : ℚ :=
  if ((cfg.rowCount : ℚ) - 1) * idealSpacingYOf width cfg > availableHeightForPegsOf height then
    max 10 (availableHeightForPegsOf height / ((cfg.rowCount : ℚ) - 1))
  else idealSpacingYOf width cfg

/-- Source expression `pegStartY = funnelExitY + gap`
(src/unnamed/part_002, line 113). -/
def pegStartYOf (height : ℚ) : ℚ := funnelExitYOf height + 30

/-- Source expression `binStartY = pegStartY + finalPegBlockHeight +
spacingY * 0.5` with
`finalPegBlockHeight = (rowCount - 1) * spacingY`
(src/unnamed/part_002, lines 110-114). -/
def binStartYOf (width height : ℚ) (cfg : SimulationConfig) : ℚ :=
  pegStartYOf height + ((cfg.rowCount : ℚ) - 1) * layoutSpacingY width height cfg +
    layoutSpacingY width height cfg * (1/2)

/-- Embedding of `getLayoutMetrics` from src/unnamed/part_002 (lines 82-127),
assembled from the helper definitions above;
`binHeight = Math.max(0, height - binStartY)` (line 115). -/
def getLayoutMetrics (width height : ℚ) (cfg : SimulationConfig) : LayoutMetrics :=
  { funnelSlopeHeight := funnelSlopeHeightOf height
    funnelNeckHeight := 40
    funnelExitY := funnelExitYOf height
    pegStartY := pegStartYOf height
    binStartY := binStartYOf width height cfg
    binHeight := max 0 (height - binStartYOf width height cfg)
    spacingX := layoutSpacingX width cfg
    spacingY := layoutSpacingY width height cfg }

/-- The record returned by `getLayoutMetrics` in src/unnamed/part_001. -/
structure LayoutMetricsV1 where
  funnelHeight : ℚ
  funnelTipY : ℚ
  pegStartY : ℚ
  binStartY : ℚ
  binHeight : ℚ
  spacingX : ℚ
  spacingY : ℚ
deriving DecidableEq

/-- Embedding of `getLayoutMetrics` from src/unnamed/part_001 (lines 115-155).
In the fallback branch this variant rescales the horizontal spacing as
`spacingY / 0.6` (it keeps the aspect of the peg lattice instead of keeping
the full-width invariant), and it does not clamp the fallback spacing from
below. -/
def getLayoutMetricsV1 (width height : ℚ) (cfg : SimulationConfig) : LayoutMetricsV1 :=
  let rowCount : ℚ := cfg.rowCount
  let bucketCount : ℚ := cfg.bucketCount
  let topMargin : ℚ := 10
  let funnelHeight : ℚ := max 70 (height * (15/100))
  let gap : ℚ := funnelHeight * (12/10)
  let targetSpacingX : ℚ := width / bucketCount
  let targetSpacingY : ℚ := targetSpacingX * (6/10)
  let targetPegBlockHeight : ℚ := (rowCount - 1) * targetSpacingY
  let usedHeightPreBin : ℚ := funnelHeight + topMargin + gap + targetPegBlockHeight
  let remainingForBins : ℚ := height - usedHeightPreBin
  let minViableBinHeight : ℚ := max 150 (height * (30/100))
  let spacingY : ℚ :=
    if remainingForBins ≥ minViableBinHeight then targetSpacingY
    else (height - funnelHeight - topMargin - gap - minViableBinHeight) / (rowCount - 1)
  let spacingX : ℚ :=
    if remainingForBins ≥ minViableBinHeight then targetSpacingX
    else spacingY / (6/10)
  let finalPegBlockHeight : ℚ := (rowCount - 1) * spacingY
  let funnelTipY : ℚ := funnelHeight
  let pegStartY : ℚ := funnelTipY + gap
  let binStartY : ℚ := pegStartY + finalPegBlockHeight + spacingY * (1/2)
  let realBinHeight : ℚ := max 0 (height - binStartY)
  { funnelHeight := funnelHeight
    funnelTipY := funnelTipY
    pegStartY := pegStartY
    binStartY := binStartY
    binHeight := realBinHeight
    spacingX := spacingX
    spacingY := spacingY }

/-- The configuration used by the spec's end-to-end example
(rowCount 8, bucketCount 9) with the default slider values of
src/unnamed/part_000 for the remaining fields. -/
def exampleConfig : SimulationConfig :=
  { rowCount := 8
    ballCount := 200
    bucketCount := 9
    pegSize := 6
    ballSize := 5
    ballRestitution := 1/2
    dropSpeedMs := 50 }

/-- Mirror of `BallColor` from src/types.ts. -/
structure BallColor where
  id : String
  color : String
  name : String
deriving DecidableEq

/-- Mirror of `BallDefinition` from src/types.ts: a colour together with how
many balls of that colour to drop.  Counts are non-negative integers. -/
structure BallDefinition where
  color : BallColor
  count : ℕ
deriving DecidableEq

/-- The first two entries of `DEFAULT_COLORS` in src/types.ts. -/
def blueColor : BallColor := { id := "1", color := "#3b82f6", name := "Blue" }

def redColor : BallColor := { id := "2", color := "#ef4444", name := "Red" }

/-- Embedding of the `ballQueue` memo of src/unnamed/part_000 (lines 29-37):
each definition is visited in list order and pushes `count` copies of its
colour onto the queue. -/
def ballQueueOf (defs : List BallDefinition) : List BallColor :=
  defs.foldl (fun queue d => queue ++ List.replicate d.count d.color) []

/-- Embedding of the bucket-label synchronisation effect of src/App.tsx
(lines 26-43): if the stored list already has `count` entries it is kept;
if it is shorter, default labels `i+1` (1-based, rendered in decimal) are
appended; if it is longer, it is truncated to `count` entries. -/
def syncBucketLabels (prev : List String) (count : ℕ) : List String :=
  if prev.length = count then prev
  else if prev.length < count then
    prev ++ (List.range (count - prev.length)).map (fun j => toString (prev.length + j + 1))
  else prev.take count

/-- Gate geometry from src/unnamed/part_002: the funnel-neck gap,
`max (ballSize * 2.2) 5`. -/
def gateGap (ballSize : ℚ) : ℚ := max (ballSize * (22/10)) 5

/-- Gate body width from src/unnamed/part_002: half the gap plus the
30-unit overlap. -/
def gateBodyWidth (ballSize : ℚ) : ℚ := gateGap ballSize / 2 + 30

/-- Closed-state target of the left gate body (src/unnamed/part_002,
lines 586-587): half a body left of centre, pulled 5 units inward. -/
def closedLeftX (width ballSize : ℚ) : ℚ :=
  width / 2 - gateBodyWidth ballSize / 2 + 5

/-- Closed-state target of the right gate body. -/
def closedRightX (width ballSize : ℚ) : ℚ :=
  width / 2 + gateBodyWidth ballSize / 2 - 5

/-- Open-state target of the left gate body: slid outward by a full body
width plus a 5-unit margin (src/unnamed/part_002, lines 589-591). -/
def openLeftX (width ballSize : ℚ) : ℚ :=
  closedLeftX width ballSize - (gateBodyWidth ballSize + 5)

/-- Open-state target of the right gate body. -/
def openRightX (width ballSize : ℚ) : ℚ :=
  closedRightX width ballSize + (gateBodyWidth ballSize + 5)

/-- Target of the left gate body for the current logical state
(src/unnamed/part_002, line 593). -/
def gateTargetLeft (width ballSize : ℚ) (isOpen : Bool) : ℚ :=
  if isOpen then openLeftX width ballSize else closedLeftX width ballSize

/-- Target of the right gate body for the current logical state. -/
def gateTargetRight (width ballSize : ℚ) (isOpen : Bool) : ℚ :=
  if isOpen then openRightX width ballSize else closedRightX width ballSize

/-- One tick of the gate animation (src/unnamed/part_002, lines 599-602):
`newX = current + (target - current) * 0.2`, applied to each gate body. -/
def gateStep (target x : ℚ) : ℚ := x + (target - x) * (2/10)

/-- The gate position after `n` ticks of `gateStep` toward a fixed target. -/
def gateIter (target x0 : ℚ) : ℕ → ℚ
  | 0 => x0
  | n + 1 => gateStep target (gateIter target x0 n)

/-- Per-tick restitution zoning of src/unnamed/part_002 (lines 616-651):
`funnelLimit = funnelExitY + 10`, `binLimit = binStartY - 10`; strictly above
the funnel limit the ball is damped to `0.1`, strictly below the bin limit it
is set to `0`, in between it gets `config.ballRestitution`. -/
def zoneRestitution (funnelExitY binStartY ballRestitution y : ℚ) : ℚ :=
  let funnelLimit : ℚ := funnelExitY + 10
  let binLimit : ℚ := binStartY - 10
  if y < funnelLimit then 1/10
  else if y > binLimit then 0
  else ballRestitution

/-- The completion decision of the simulation loop in src/unnamed/part_002
(lines 663-671), as a function of the number of balls spawned so far
(`totalBalls = ballsRef.current.length`), the number of awake balls
(`activeCount`) and the expected queue length (`config.ballCount`).
`true` means `onComplete` is invoked on this tick. -/
def completionSignal (totalBalls activeCount ballCount : ℕ) : Bool :=
  if 0 < totalBalls then
    if activeCount = 0 ∧ totalBalls = ballCount then true
    else if activeCount = 0 then true
    else false
  else false

/-- Per-ball data read by the settling check of
src/components/GaltonBoard.tsx (line 505). -/
structure BallMotion where
  speed : ℚ
  angularSpeed : ℚ
  y : ℚ
deriving DecidableEq

/-- The settled test of src/components/GaltonBoard.tsx (line 505): speed
below 0.15, angular speed below 0.1 and position past the funnel area. -/
def isSettledTimed (b : BallMotion) : Bool :=
  decide (b.speed < 15/100) && decide (b.angularSpeed < 1/10) && decide (b.y > 150)

/-- The completion decision of the timed-drop loop in
src/components/GaltonBoard.tsx (lines 487-516): while
`dropped < queueLength` the tick only runs the drop logic and never
completes; once everything has been dropped, completion fires when all live
balls are settled (or when all spawned balls left the world). -/
def timedCompletionSignal (queueLength dropped : ℕ) (balls : List BallMotion) : Bool :=
  if dropped < queueLength then false
  else if 0 < balls.length then balls.all isSettledTimed
  else if balls.length = 0 ∧ 0 < dropped then true
  else false

/-- State of the timed-drop model of src/components/GaltonBoard.tsx: the
spawned balls (by colour) and the drop index `ballsDroppedRef.current`. -/
structure TimedDropState where
  balls : List BallColor
  dropped : ℕ
deriving DecidableEq

/-- Embedding of `spawnBall` from src/components/GaltonBoard.tsx
(lines 739-766): if the drop index has reached the queue length the call
returns unchanged, otherwise the queue entry at the drop index is spawned.
The random horizontal jitter of the spawn position is not modelled; the
spawned colour sequence is. -/
def spawnBall (queue : List BallColor) (s : TimedDropState) : TimedDropState :=
  match queue[s.dropped]? with
  | none => s
  | some c => { s with balls := s.balls ++ [c] }

/-- The drop logic of one loop tick in src/components/GaltonBoard.tsx
(lines 491-496): when the drop index is below the queue length and the drop
interval has elapsed, spawn one ball and advance the drop index. -/
def dropTick (queue : List BallColor) (intervalElapsed : Bool) (s : TimedDropState) :
    TimedDropState :=
  if s.dropped < queue.length ∧ intervalElapsed then
    let s' := spawnBall queue s
    { s' with dropped := s'.dropped + 1 }
  else s

/-- Embedding of `spawnBalls` from src/unnamed/part_002 (lines 498-537),
the batch-fill model: every invocation maps over the whole `ballQueue`,
creates one ball per entry and appends them to the persistent ball list.
The grid placement and jitter are not modelled; the spawned colour sequence
is. -/
def spawnBallsBatch (queue balls : List BallColor) : List BallColor :=
  balls ++ queue

/-- A bin divider as built by `setupStaticBoard`. -/
structure BinDivider where
  x : ℚ
  y : ℚ
  bodyWidth : ℚ
  bodyHeight : ℚ
deriving DecidableEq

/-- Embedding of the bin-divider construction of src/unnamed/part_002
(lines 469-482) and src/unnamed/part_001 (lines 258-271): dividers at
`i = 0 .. bucketCount`, each 4 units wide and `max 1 binHeight` tall,
centred on the bin band. -/
def binDividers (width binStartY binHeight spacingX : ℚ) (bucketCount : ℕ) :
    List BinDivider :=
  let totalBinWidth : ℚ := bucketCount * spacingX
  let binAreaStartX : ℚ := width / 2 - totalBinWidth / 2
  let validBinHeight : ℚ := max 1 binHeight
  let binCenterY : ℚ := binStartY + validBinHeight / 2
  (List.range (bucketCount + 1)).map fun (i : ℕ) =>
    { x := binAreaStartX + (i : ℚ) * spacingX
      y := binCenterY
      bodyWidth := 4
      bodyHeight := validBinHeight }

example :
    (getLayoutMetrics 900 600 exampleConfig).spacingX = 100 := by
  norm_num [getLayoutMetrics, funnelSlopeHeightOf, funnelExitYOf, layoutSpacingX, idealSpacingYOf, minViableBinHeightOf, availableHeightForPegsOf, layoutSpacingY, pegStartYOf, binStartYOf, exampleConfig]

example :
    (getLayoutMetrics 900 600 exampleConfig).binStartY = 2995/7 := by
  norm_num [getLayoutMetrics, funnelSlopeHeightOf, funnelExitYOf, layoutSpacingX, idealSpacingYOf, minViableBinHeightOf, availableHeightForPegsOf, layoutSpacingY, pegStartYOf, binStartYOf, exampleConfig]

example :
    (getLayoutMetricsV1 900 600 exampleConfig).spacingX = 1060/21 := by
  norm_num [getLayoutMetricsV1, exampleConfig]

example :
    ballQueueOf [⟨redColor, 3⟩, ⟨blueColor, 2⟩] =
      [redColor, redColor, redColor, blueColor, blueColor] := by
  decide

example : syncBucketLabels ["a", "b"] 4 = ["a", "b", "3", "4"] := by decide

example : completionSignal 10 0 500 = true := by decide

example :
    zoneRestitution 130 (2995/7) (1/2) (2995/7 - 1) = 0 := by
  norm_num [zoneRestitution]

/-- The fallback branch never makes the part_002 vertical spacing
non-positive: it is clamped at 10, and the ideal branch is positive for a
positive width. -/
theorem layoutSpacingY_pos (w h : ℚ) (cfg : SimulationConfig)
    (hb : 1 ≤ cfg.bucketCount) (hw : 0 < w) : 0 < layoutSpacingY w h cfg := by
  have hbp : (0 : ℚ) < (cfg.bucketCount : ℚ) := by exact_mod_cast hb
  unfold layoutSpacingY
  split
  · exact lt_of_lt_of_le (by norm_num) (le_max_left 10 _)
  · unfold idealSpacingYOf layoutSpacingX
    have := div_pos hw hbp
    nlinarith

/-- Non-strict version of `layoutSpacingY_pos`, valid for a merely
non-negative width. -/
theorem layoutSpacingY_nonneg (w h : ℚ) (cfg : SimulationConfig)
    (hw : 0 ≤ w) : 0 ≤ layoutSpacingY w h cfg := by
  unfold layoutSpacingY
  split
  · exact le_trans (by norm_num) (le_max_left 10 _)
  · unfold idealSpacingYOf layoutSpacingX
    have hbn : (0 : ℚ) ≤ (cfg.bucketCount : ℚ) := Nat.cast_nonneg _
    have := div_nonneg hw hbn
    nlinarith

/-- The funnel slope band is at least 70 units tall for every height. -/
theorem funnelSlopeHeightOf_ge (h : ℚ) : 70 ≤ funnelSlopeHeightOf h :=
  le_max_left 70 _

/-- The peg field of part_002 starts at least 140 units from the top. -/
theorem pegStartYOf_ge (h : ℚ) : 140 ≤ pegStartYOf h := by
  unfold pegStartYOf funnelExitYOf
  have := funnelSlopeHeightOf_ge h
  linarith

/-- With at least two rows and a non-negative width, the bin band of
part_002 starts below the peg-field start, hence at least 140 units from
the top. -/
theorem binStartYOf_ge (w h : ℚ) (cfg : SimulationConfig)
    (hr : 2 ≤ cfg.rowCount) (hw : 0 ≤ w) : 140 ≤ binStartYOf w h cfg := by
  unfold binStartYOf
  have h1 := pegStartYOf_ge h
  have h2 := layoutSpacingY_nonneg w h cfg hw
  have h3 : (1 : ℚ) ≤ (cfg.rowCount : ℚ) - 1 := by
    have : (2 : ℚ) ≤ (cfg.rowCount : ℚ) := by exact_mod_cast hr
    linarith
  nlinarith

/-- C1: In the part_002 layout calculator, `spacingX * bucketCount = width`
holds exactly for every canvas size and every `bucketCount ≥ 1`, in every
branch: the compression fallback rewrites only `spacingY`, never the
horizontal spacing, which stays `width / bucketCount`. -/
theorem c1_full_width_invariant (w h : ℚ) (cfg : SimulationConfig)
    (hb : 1 ≤ cfg.bucketCount) :
    (getLayoutMetrics w h cfg).spacingX * (cfg.bucketCount : ℚ) = w ∧
    (getLayoutMetrics w h cfg).spacingX = w / (cfg.bucketCount : ℚ) := by
  have hb0 : ((cfg.bucketCount : ℚ)) ≠ 0 := by
    have hp : (0 : ℚ) < (cfg.bucketCount : ℚ) := by exact_mod_cast hb
    exact ne_of_gt hp
  refine ⟨?_, rfl⟩
  show w / (cfg.bucketCount : ℚ) * (cfg.bucketCount : ℚ) = w
  exact div_mul_cancel₀ w hb0

/-- C1 counterexample: in the part_001 layout calculator, the compression
fallback rescales the horizontal spacing too (`spacingX = spacingY / 0.6`),
so at width 900, height 600, rowCount 8, bucketCount 9 — where the fallback
is taken — `spacingX * bucketCount = 3180/7 ≠ 900`. -/
theorem c1_v1_fallback_rescales_horizontal :
    ¬ ((getLayoutMetricsV1 900 600 exampleConfig).spacingX *
        (exampleConfig.bucketCount : ℚ) = 900) := by
  norm_num [getLayoutMetricsV1, exampleConfig]

/-- C1 witness: the full-width invariant evaluated at the 900×600 example
configuration. -/
theorem c1_full_width_invariant_witness :
    1 ≤ exampleConfig.bucketCount ∧
      (getLayoutMetrics 900 600 exampleConfig).spacingX *
        (exampleConfig.bucketCount : ℚ) = 900 :=
  ⟨by decide, (c1_full_width_invariant 900 600 exampleConfig (by decide)).1⟩

/-- C4: for the part_002 layout calculator, any config with `rowCount ≥ 2`
and `bucketCount ≥ 1` and any positive canvas width gives a non-negative bin
height and a peg-field start strictly above the bin start. -/
theorem c4_band_order (w h : ℚ) (cfg : SimulationConfig)
    (hr : 2 ≤ cfg.rowCount) (hb : 1 ≤ cfg.bucketCount) (hw : 0 < w) :
    0 ≤ (getLayoutMetrics w h cfg).binHeight ∧
    (getLayoutMetrics w h cfg).pegStartY < (getLayoutMetrics w h cfg).binStartY := by
  refine ⟨le_max_left 0 _, ?_⟩
  show pegStartYOf h < binStartYOf w h cfg
  have hsy := layoutSpacingY_pos w h cfg hb hw
  have h3 : (1 : ℚ) ≤ (cfg.rowCount : ℚ) - 1 := by
    have : (2 : ℚ) ≤ (cfg.rowCount : ℚ) := by exact_mod_cast hr
    linarith
  unfold binStartYOf
  nlinarith

/-- C4 counterexample: in the part_001 variant the fallback spacing is not
clamped from below, so at width 900, height 100 (a small but positive
canvas), rowCount 8, bucketCount 9, the vertical spacing is negative and the
computed bin start (−527/7) lies above the peg-field start (154): the claim
`pegFieldStartY < binStartY` fails on a positive canvas. -/
theorem c4_v1_inverted_bands :
    ¬ ((getLayoutMetricsV1 900 100 exampleConfig).pegStartY <
        (getLayoutMetricsV1 900 100 exampleConfig).binStartY) := by
  norm_num [getLayoutMetricsV1, exampleConfig]

/-- C4 witness: the band-order property evaluated at the 900×600 example
configuration. -/
theorem c4_band_order_witness :
    (2 ≤ exampleConfig.rowCount ∧ 1 ≤ exampleConfig.bucketCount ∧ (0 : ℚ) < 900) ∧
      (0 ≤ (getLayoutMetrics 900 600 exampleConfig).binHeight ∧
        (getLayoutMetrics 900 600 exampleConfig).pegStartY <
          (getLayoutMetrics 900 600 exampleConfig).binStartY) :=
  ⟨⟨by decide, by decide, by norm_num⟩,
    c4_band_order 900 600 exampleConfig (by decide) (by decide) (by norm_num)⟩

/-- C9: the part_002 layout computation is a total function; for any config
with `rowCount ≥ 2`, `bucketCount ≥ 1` and a non-negative width (including
the degenerate zero width, and any height, including zero and negative
heights) every layout field is non-negative, and a degenerate
(zero/negative) height forces the derived bin span to exactly zero. -/
theorem c9_degenerate_layout_safe (w h : ℚ) (cfg : SimulationConfig)
    (hr : 2 ≤ cfg.rowCount) (_hb : 1 ≤ cfg.bucketCount) (hw : 0 ≤ w) :
    (0 ≤ (getLayoutMetrics w h cfg).funnelSlopeHeight ∧
     0 ≤ (getLayoutMetrics w h cfg).funnelNeckHeight ∧
     0 ≤ (getLayoutMetrics w h cfg).funnelExitY ∧
     0 ≤ (getLayoutMetrics w h cfg).pegStartY ∧
     0 ≤ (getLayoutMetrics w h cfg).binStartY ∧
     0 ≤ (getLayoutMetrics w h cfg).binHeight ∧
     0 ≤ (getLayoutMetrics w h cfg).spacingX ∧
     0 ≤ (getLayoutMetrics w h cfg).spacingY) ∧
    (h ≤ 0 → (getLayoutMetrics w h cfg).binHeight = 0) := by
  have hfs := funnelSlopeHeightOf_ge h
  have hps := pegStartYOf_ge h
  have hbs := binStartYOf_ge w h cfg hr hw
  have hsy := layoutSpacingY_nonneg w h cfg hw
  have hbn : (0 : ℚ) ≤ (cfg.bucketCount : ℚ) := Nat.cast_nonneg _
  constructor
  · refine ⟨?_, show (0 : ℚ) ≤ 40 by norm_num, ?_, ?_, ?_, le_max_left 0 _, ?_, hsy⟩
    · exact le_trans (by norm_num) hfs
    · show (0 : ℚ) ≤ funnelExitYOf h
      unfold funnelExitYOf
      linarith
    · exact le_trans (by norm_num) hps
    · exact le_trans (by norm_num) hbs
    · exact div_nonneg hw hbn
  · intro hh
    show max 0 (h - binStartYOf w h cfg) = 0
    have : h - binStartYOf w h cfg ≤ 0 := by linarith
    exact max_eq_left this

/-- C9 counterexample: for a negative canvas width the part_002 layout is
not clamped — the horizontal spacing is a negative size
(`spacingX = -100` at width −900, bucketCount 9), contradicting
"no negative sizes in any layout field" for degenerate inputs. -/
theorem c9_negative_width_negative_spacing :
    (getLayoutMetrics (-900) 600 exampleConfig).spacingX < 0 := by
  show (-900 : ℚ) / ((exampleConfig.bucketCount : ℕ) : ℚ) < 0
  norm_num [exampleConfig]

/-- C9 witness: the safety property evaluated at the degenerate 0×0
canvas. -/
theorem c9_degenerate_layout_safe_witness :
    (2 ≤ exampleConfig.rowCount ∧ 1 ≤ exampleConfig.bucketCount ∧ (0 : ℚ) ≤ 0) ∧
      ((0 ≤ (getLayoutMetrics 0 0 exampleConfig).funnelSlopeHeight ∧
        0 ≤ (getLayoutMetrics 0 0 exampleConfig).funnelNeckHeight ∧
        0 ≤ (getLayoutMetrics 0 0 exampleConfig).funnelExitY ∧
        0 ≤ (getLayoutMetrics 0 0 exampleConfig).pegStartY ∧
        0 ≤ (getLayoutMetrics 0 0 exampleConfig).binStartY ∧
        0 ≤ (getLayoutMetrics 0 0 exampleConfig).binHeight ∧
        0 ≤ (getLayoutMetrics 0 0 exampleConfig).spacingX ∧
        0 ≤ (getLayoutMetrics 0 0 exampleConfig).spacingY) ∧
       ((0 : ℚ) ≤ 0 → (getLayoutMetrics 0 0 exampleConfig).binHeight = 0)) :=
  ⟨⟨by decide, by decide, le_refl 0⟩,
    c9_degenerate_layout_safe 0 0 exampleConfig (by decide) (by decide) (le_refl 0)⟩

/-- C3: the zone tuner of src/unnamed/part_002 switches from peg-field
restitution to the damped bin value at `binStartY - 10` (a strict
comparison): below the funnel band, any ball strictly past `binStartY - 10`
is assigned restitution 0, and any ball at or above that limit keeps
`config.ballRestitution`. -/
theorem c3_zone_boundary (fE bS r y : ℚ) (hy : fE + 10 ≤ y) :
    (bS - 10 < y → zoneRestitution fE bS r y = 0) ∧
    (y ≤ bS - 10 → zoneRestitution fE bS r y = r) := by
  unfold zoneRestitution
  constructor
  · intro hlt
    rw [if_neg (not_lt.mpr hy), if_pos hlt]
  · intro hle
    rw [if_neg (not_lt.mpr hy), if_neg (not_lt.mpr hle)]

/-- C3 counterexample: on the 900×600 example layout
(`binStartY = 2995/7`, `funnelExitY = 130`) a ball at exactly
`binStartY - 1` is assigned restitution 0, not the peg-field value
`config.ballRestitution = 1/2`: the bin-zone boundary sits at
`binStartY - 10`, not at `binStartY`. -/
theorem c3_boundary_at_binStartY_refuted :
    zoneRestitution (getLayoutMetrics 900 600 exampleConfig).funnelExitY
        (getLayoutMetrics 900 600 exampleConfig).binStartY
        exampleConfig.ballRestitution
        ((getLayoutMetrics 900 600 exampleConfig).binStartY - 1) = 0 ∧
    exampleConfig.ballRestitution ≠ 0 := by
  have hb : (getLayoutMetrics 900 600 exampleConfig).binStartY = 2995/7 := by
    norm_num [getLayoutMetrics, binStartYOf, pegStartYOf, funnelExitYOf,
      funnelSlopeHeightOf, layoutSpacingY, idealSpacingYOf, layoutSpacingX,
      minViableBinHeightOf, availableHeightForPegsOf, exampleConfig]
  have hf : (getLayoutMetrics 900 600 exampleConfig).funnelExitY = 130 := by
    norm_num [getLayoutMetrics, funnelExitYOf, funnelSlopeHeightOf]
  rw [hb, hf]
  constructor
  · norm_num [zoneRestitution]
  · norm_num [exampleConfig]

/-- C3 witness: the amended boundary property evaluated one unit on each
side of `binStartY - 10` on the example layout values. -/
theorem c3_zone_boundary_witness :
    ((130 : ℚ) + 10 ≤ 2995/7 - 11) ∧
      ((2995/7 - 10 < (2995/7 - 11 : ℚ) →
          zoneRestitution 130 (2995/7) (1/2) (2995/7 - 11) = 0) ∧
       ((2995/7 - 11 : ℚ) ≤ 2995/7 - 10 →
          zoneRestitution 130 (2995/7) (1/2) (2995/7 - 11) = 1/2)) :=
  ⟨by norm_num, c3_zone_boundary 130 (2995/7) (1/2) (2995/7 - 11) (by norm_num)⟩

/-- C2: evaluating the completion decision of src/unnamed/part_002 at the
claim's own scenario — expected queue length 500, only 10 balls spawned and
all of them asleep (`activeCount = 0`) — shows that the signal *does* fire:
the `totalBalls === config.ballCount` guard is nullified by the `else`
branch, which invokes `onComplete` whenever `activeCount === 0`. -/
theorem c2_completion_fires_midbatch :
    completionSignal 10 0 500 = true ∧ 10 < 500 := by decide

/-- Length of the ball-queue fold of src/unnamed/part_000, for an arbitrary
accumulator. -/
theorem ballQueue_foldl_length (defs : List BallDefinition) (acc : List BallColor) :
    (defs.foldl (fun queue d => queue ++ List.replicate d.count d.color) acc).length =
      acc.length + (defs.map (fun d => d.count)).sum := by
  induction defs generalizing acc with
  | nil => simp
  | cons d ds ih =>
    simp only [List.foldl_cons, List.map_cons, List.sum_cons, ih,
      List.length_append, List.length_replicate]
    omega

/-- The ball-queue fold of src/unnamed/part_000 adds nothing when every
definition has count 0. -/
theorem ballQueue_foldl_zero (defs : List BallDefinition) (acc : List BallColor)
    (h : ∀ d ∈ defs, d.count = 0) :
    defs.foldl (fun queue d => queue ++ List.replicate d.count d.color) acc = acc := by
  induction defs generalizing acc with
  | nil => rfl
  | cons d ds ih =>
    have hd : d.count = 0 := h d (List.mem_cons_self d ds)
    simp only [List.foldl_cons, hd, List.replicate_zero, List.append_nil]
    exact ih acc (fun d' hd' => h d' (List.mem_cons_of_mem d hd'))

/-- C5: flattening `[{red,3},{blue,2}]` yields
`[red,red,red,blue,blue]`; for every definition list the queue length is
the sum of the counts, and all-zero counts yield the empty queue. -/
theorem c5_queue_flattening :
    ballQueueOf [⟨redColor, 3⟩, ⟨blueColor, 2⟩] =
        [redColor, redColor, redColor, blueColor, blueColor] ∧
    (∀ defs : List BallDefinition,
        (ballQueueOf defs).length = (defs.map (fun d => d.count)).sum) ∧
    (∀ defs : List BallDefinition,
        (∀ d ∈ defs, d.count = 0) → ballQueueOf defs = []) := by
  refine ⟨by decide, fun defs => ?_, fun defs h => ?_⟩
  · simpa using ballQueue_foldl_length defs []
  · exact ballQueue_foldl_zero defs [] h

/-- C5 witness: the all-zero case evaluated on two zero-count
definitions. -/
theorem c5_queue_flattening_witness :
    (∀ d ∈ [BallDefinition.mk redColor 0, BallDefinition.mk blueColor 0], d.count = 0) ∧
      ballQueueOf [BallDefinition.mk redColor 0, BallDefinition.mk blueColor 0] = [] :=
  ⟨by decide, c5_queue_flattening.2.2 _ (by decide)⟩

/-- The gate residual shrinks by the factor 0.8 on every tick. -/
theorem gateStep_residual (target x : ℚ) :
    target - gateStep target x = (8/10) * (target - x) := by
  unfold gateStep
  ring

/-- After `n` ticks the gate residual is `(0.8)^n` times the initial one. -/
theorem gateIter_residual (target x0 : ℚ) (n : ℕ) :
    target - gateIter target x0 n = (8/10) ^ n * (target - x0) := by
  induction n with
  | zero => simp [gateIter]
  | succ n ih =>
    have h := gateStep_residual target (gateIter target x0 n)
    calc target - gateIter target x0 (n + 1)
        = (8/10) * (target - gateIter target x0 n) := h
      _ = (8/10) ^ (n + 1) * (target - x0) := by rw [ih]; ring

/-- C6: each tick moves a gate body by `x + (target - x) * 0.2`, so the
distance to the target of the current logical state shrinks by exactly the
factor 0.8 per tick; starting anywhere at or below the target (as after an
open-then-immediately-closed toggle, when the body sits left of the closed
target) the iterates increase monotonically toward the target and never
overshoot it. -/
theorem c6_gate_convergence :
    (∀ target x : ℚ, target - gateStep target x = (8/10) * (target - x)) ∧
    (∀ (target x0 : ℚ) (n : ℕ),
        target - gateIter target x0 n = (8/10) ^ n * (target - x0)) ∧
    (∀ (target x0 : ℚ) (n : ℕ),
        |target - gateIter target x0 (n + 1)| =
          (8/10) * |target - gateIter target x0 n|) ∧
    (∀ (target x0 : ℚ), x0 ≤ target → ∀ n : ℕ,
        gateIter target x0 n ≤ gateIter target x0 (n + 1) ∧
        gateIter target x0 n ≤ target) ∧
    (∀ w b : ℚ, gateTargetLeft w b false = closedLeftX w b ∧
        gateTargetLeft w b true = openLeftX w b ∧
        gateTargetRight w b false = closedRightX w b ∧
        gateTargetRight w b true = openRightX w b) := by
  refine ⟨gateStep_residual, gateIter_residual, ?_, ?_, fun w b => ⟨rfl, rfl, rfl, rfl⟩⟩
  · intro target x0 n
    have h : target - gateIter target x0 (n + 1) =
        (8/10) * (target - gateIter target x0 n) :=
      gateStep_residual target (gateIter target x0 n)
    rw [h, abs_mul]
    norm_num
  · intro target x0 hle n
    have h1 := gateIter_residual target x0 n
    have h2 := gateIter_residual target x0 (n + 1)
    have hp : (0 : ℚ) ≤ (8/10) ^ n := by positivity
    have hd : (0 : ℚ) ≤ target - x0 := by linarith
    constructor
    · have hmono : (8/10 : ℚ) ^ (n + 1) ≤ (8/10) ^ n :=
        pow_le_pow_of_le_one (by norm_num) (by norm_num) (Nat.le_succ n)
      nlinarith
    · nlinarith

/-- C6 witness: monotone convergence evaluated at target 10 from 0, first
tick. -/
theorem c6_gate_convergence_witness :
    ((0 : ℚ) ≤ 10) ∧
      (gateIter 10 0 1 ≤ gateIter 10 0 2 ∧ gateIter 10 0 1 ≤ 10) :=
  ⟨by norm_num, c6_gate_convergence.2.2.2.1 10 0 (by norm_num) 1⟩

/-- Spawning with a drop index still inside the queue appends exactly the
queue entry at that index. -/
theorem spawnBall_of_lt (queue : List BallColor) (s : TimedDropState)
    (hlt : s.dropped < queue.length) :
    spawnBall queue s = { s with balls := s.balls ++ [queue.get ⟨s.dropped, hlt⟩] } := by
  unfold spawnBall
  rw [List.getElem?_eq_getElem hlt]
  rfl

/-- C7: in the timed-drop model of src/components/GaltonBoard.tsx the
spawn command is guarded by the drop index: once the index reaches the
queue length `spawnBall` is a no-op, `spawnBall` itself never advances the
index (only the loop does), and a loop tick preserves the invariant that
the number of introduced balls equals the drop index. -/
theorem c7_drop_index_guard :
    (∀ (queue : List BallColor) (s : TimedDropState),
        queue.length ≤ s.dropped → spawnBall queue s = s) ∧
    (∀ (queue : List BallColor) (s : TimedDropState),
        (spawnBall queue s).dropped = s.dropped) ∧
    (∀ (queue : List BallColor) (e : Bool) (s : TimedDropState),
        s.balls.length = s.dropped →
          (dropTick queue e s).balls.length = (dropTick queue e s).dropped) := by
  refine ⟨?_, ?_, ?_⟩
  · intro queue s h
    unfold spawnBall
    rw [List.getElem?_eq_none h]
  · intro queue s
    unfold spawnBall
    cases queue[s.dropped]? with
    | none => rfl
    | some c => rfl
  · intro queue e s h
    unfold dropTick
    split_ifs with hc
    · obtain ⟨hlt, _⟩ := hc
      rw [spawnBall_of_lt queue s hlt]
      simp only [List.length_append, List.length_cons, List.length_nil]
      omega
    · exact h

/-- A two-ball queue used for concrete evaluations of the spawn models. -/
def demoQueue : List BallColor := [redColor, blueColor]

/-- C7 counterexample: the batch model of src/unnamed/part_002 maps over
the whole `ballQueue` on *every* fill invocation and appends the new batch
to the persistent ball list, so a second fill command duplicates every
already-spawned ball: two fills of a 2-ball queue leave 4 balls, not 2. -/
theorem c7_batch_refill_duplicates :
    spawnBallsBatch demoQueue (spawnBallsBatch demoQueue []) ≠
        spawnBallsBatch demoQueue [] ∧
    (spawnBallsBatch demoQueue (spawnBallsBatch demoQueue [])).length = 4 ∧
    demoQueue.length = 2 := by
  decide

/-- C7 witness: the no-op guard evaluated with the demo queue fully
dropped. -/
theorem c7_drop_index_guard_witness :
    (demoQueue.length ≤ 2) ∧ spawnBall demoQueue ⟨demoQueue, 2⟩ = ⟨demoQueue, 2⟩ :=
  ⟨by decide, c7_drop_index_guard.1 demoQueue ⟨demoQueue, 2⟩ (by decide)⟩

/-- C8: the board builder emits exactly `bucketCount + 1` bin dividers,
every divider is `max 1 binHeight` tall, and for a non-positive bin height
every divider still appears with the minimum height of 1 unit. -/
theorem c8_bin_divider_emission (w bS bH sX : ℚ) (bucketCount : ℕ) :
    (binDividers w bS bH sX bucketCount).length = bucketCount + 1 ∧
    (∀ d ∈ binDividers w bS bH sX bucketCount, d.bodyHeight = max 1 bH) ∧
    (bH ≤ 0 → ∀ d ∈ binDividers w bS bH sX bucketCount, d.bodyHeight = 1) := by
  refine ⟨?_, ?_, ?_⟩
  · unfold binDividers
    rw [List.length_map, List.length_range]
  · intro d hd
    simp only [binDividers, List.mem_map] at hd
    obtain ⟨i, _, rfl⟩ := hd
    rfl
  · intro hle d hd
    simp only [binDividers, List.mem_map] at hd
    obtain ⟨i, _, rfl⟩ := hd
    show max 1 bH = 1
    exact max_eq_left (le_trans hle (by norm_num))

/-- C8 witness: dividers for a negative bin height on a 9-bucket board all
get height 1, and there are 10 of them. -/
theorem c8_bin_divider_emission_witness :
    ((-5 : ℚ) ≤ 0) ∧ ∀ d ∈ binDividers 900 400 (-5) 100 9, d.bodyHeight = 1 :=
  ⟨by norm_num, (c8_bin_divider_emission 900 400 (-5) 100 9).2.2 (by norm_num)⟩

/-- C10: after synchronising the bucket labels with a new `bucketCount`,
the list has exactly `bucketCount` entries, indices retained from the old
list are unchanged, and every newly added index `i` carries the decimal
rendering of its 1-based position `i + 1`. -/
theorem c10_label_sync (prev : List String) (count : ℕ) :
    (syncBucketLabels prev count).length = count ∧
    (∀ i, i < prev.length → i < count →
        (syncBucketLabels prev count)[i]? = prev[i]?) ∧
    (∀ i, prev.length ≤ i → i < count →
        (syncBucketLabels prev count)[i]? = some (toString (i + 1))) := by
  unfold syncBucketLabels
  split_ifs with h1 h2
  · exact ⟨h1, fun i _ _ => rfl, fun i hge hlt => by omega⟩
  · refine ⟨?_, ?_, ?_⟩
    · simp only [List.length_append, List.length_map, List.length_range]
      omega
    · intro i hi _
      exact List.getElem?_append_left hi
    · intro i hge hlt
      rw [List.getElem?_append_right hge, List.getElem?_map,
        List.getElem?_range (by omega : i - prev.length < count - prev.length)]
      simp only [Option.map_some']
      congr 1
      congr 1
      omega
  · refine ⟨?_, ?_, ?_⟩
    · simp only [List.length_take]
      omega
    · intro i _ hic
      exact List.getElem?_take_of_lt hic
    · intro i hge hlt
      omega

/-- C10 witness: growing `["a", "b"]` to four buckets keeps index 1 and
gives index 2 the default label "3". -/
theorem c10_label_sync_witness :
    ((1 < (["a", "b"] : List String).length ∧ 1 < 4) ∧
      (syncBucketLabels ["a", "b"] 4)[1]? = (["a", "b"] : List String)[1]?) ∧
    ((["a", "b"] : List String).length ≤ 2 ∧ 2 < 4) ∧
      (syncBucketLabels ["a", "b"] 4)[2]? = some (toString (2 + 1)) :=
  ⟨⟨⟨by decide, by decide⟩, (c10_label_sync ["a", "b"] 4).2.1 1 (by decide) (by decide)⟩,
    ⟨by decide, by decide⟩, (c10_label_sync ["a", "b"] 4).2.2 2 (by decide) (by decide)⟩
